import Mathlib

set_option autoImplicit false

/-
Verification of the data pipeline of `app_analise_chamados.py`:
the loader `carregar_dados` (lines 17-65), the sidebar filter
(lines 92-129) and the per-analyst / per-category performance
summaries (lines 179-191 and 205-217).

The pandas dataframe layer is embedded shallowly: a dataframe is a
list of column labels plus rows of cells, a cell is NaN, a number, a
string, or a parsed datetime.  Timestamps are modelled as second
counts; the calendar day of a timestamp `t` (pandas `.dt.date`) is
`t / 86400`.  `pd.to_datetime(_, errors="coerce")` is modelled as
reading a decimal second count, with every unparseable value
coercing to NaT, which keeps the coerce-then-drop structure of the
source while abstracting the concrete calendar formats.
-/

namespace Chamados

/-- A cell of a loaded dataframe: pandas NaN is `null`, numeric cells
are rationals, text cells are strings, and `date t` is a parsed
datetime holding a timestamp of `t` seconds. -/
inductive Val where
  | null : Val
  | num : Rat → Val
  | str : String → Val
  | date : Nat → Val
deriving DecidableEq

/-- The numeric value of one decimal digit, `none` on any other
character. -/
def digitVal (c : Char) : Option Nat :=
  if c.isDigit then some (c.toNat - 48) else none

/-- Reads a non-empty all-digit character list as a natural number. -/
def digitsToNat? (cs : List Char) : Option Nat :=
  match cs with
  | [] => none
  | _ => cs.foldl (fun acc c => acc.bind (fun n => (digitVal c).map (fun d => n * 10 + d)))
      (some 0)

/-- Splits a character list at every dot. -/
def splitDot : List Char → List (List Char)
  | [] => [[]]
  | c :: rest =>
    if c = '.' then [] :: splitDot rest
    else
      match splitDot rest with
      | h :: t => (c :: h) :: t
      | [] => [[c]]

/-- Decimal literal recognition used by `pd.read_csv` when it types a
column as numeric: optional minus sign, digits, optional fractional
part ("3.5" parses to 7/2, "abc" does not parse). -/
def parseRat (s : String) : Option Rat :=
  let core : List Char → Option Rat := fun t =>
    match splitDot t with
    | [a] => (digitsToNat? a).map (fun n => (n : Rat))
    | [a, b] =>
      match digitsToNat? a, digitsToNat? b with
      | some n, some m => some ((n : Rat) + (m : Rat) / ((10 : Rat) ^ b.length))
      | _, _ => none
    | _ => none
  match s.toList with
  | '-' :: rest => (core rest).map (fun q => -q)
  | cs => core cs

/-- One uploaded file as seen through `pd.read_csv(arquivo, header=2)`
inside the `try` of lines 23-28: `bad name` is a file whose read
raises (the exception is caught and reported with the file name);
`good name header cells` gives the column-header row (the third line
of the file, after the two skipped preamble lines) and the data
cells, all still raw strings. -/
inductive CsvFile where
  | bad : String → CsvFile
  | good : String → List String → List (List String) → CsvFile
deriving DecidableEq

def CsvFile.name : CsvFile → String
  | .bad n => n
  | .good n _ _ => n

/-- A dataframe: column labels plus rows of cells.  A row index past
the end of a row reads as `Val.null`, mirroring pandas NaN padding. -/
structure DF where
  cols : List String
  rows : List (List Val)
deriving DecidableEq

/-- Index of the first column with the given label, `df[label]`
resolution; `none` is pandas `KeyError`. -/
def colIdx (cols : List String) (c : String) : Option Nat :=
  match cols with
  | [] => none
  | x :: xs => if x = c then some 0 else (colIdx xs c).map (fun j => j + 1)

/-- Cell of row `r` in column `c` of `df`, `none` when the column is
absent. -/
def DF.getCell (df : DF) (r : List Val) (c : String) : Option Val :=
  (colIdx df.cols c).map (fun j => (r.getD j Val.null))

/-- Typing of one raw cell, given whether column inference made the
column numeric: the empty cell is NaN, a numeric column parses
every non-empty cell, an object column keeps the raw string. -/
def inferCell (numeric : Bool) (c : String) : Val :=
  if c = "" then Val.null
  else if numeric then
    match parseRat c with
    | some q => Val.num q
    | none => Val.str c
  else Val.str c

/-- Model of `pd.read_csv(arquivo, header=2)`: a `bad` file raises
(`none`, caught by line 27); a `good` file yields a dataframe whose
columns are the header labels, with each column typed numeric when
every non-empty cell of it parses as a number. -/
def read_csv : CsvFile → Option DF
  | .bad _ => none
  | .good _ hdr cells =>
    let numeric : Nat → Bool := fun j =>
      cells.all (fun r => (r.getD j "") = "" || (parseRat (r.getD j "")).isSome)
    some { cols := hdr,
           rows := cells.map (fun r =>
             (List.range hdr.length).map (fun j => inferCell (numeric j) (r.getD j ""))) }

/-- Column-label union in order of first appearance, as
`pd.concat` aligns columns. -/
def dedupFirst (l : List String) : List String :=
  l.foldl (fun acc c => if acc.contains c then acc else acc ++ [c]) []

/-- Model of `pd.concat(lista_dfs, ignore_index=True)` (line 34): the
columns are the union of the per-file columns, each row is reindexed
on that union with NaN for the columns its file lacks. -/
def concatDFs (dfs : List DF) : DF :=
  let cols := dedupFirst (dfs.flatMap (fun d => d.cols))
  { cols := cols,
    rows := dfs.flatMap (fun d =>
      d.rows.map (fun r => cols.map (fun c =>
        match colIdx d.cols c with
        | some j => r.getD j Val.null
        | none => Val.null))) }

/-- Model of `dropna(axis=1, how="all")` (line 38): remove every
column all of whose cells are NaN. -/
def DF.dropAllNullCols (df : DF) : DF :=
  let keep := (List.range df.cols.length).filter
    (fun j => !(df.rows.all (fun r => r.getD j Val.null == Val.null)))
  { cols := keep.filterMap (fun j => df.cols.get? j),
    rows := df.rows.map (fun r => keep.map (fun j => r.getD j Val.null)) }

/-- Model of `pd.to_datetime(_, errors="coerce")` applied to one cell
(line 42): decimal second counts (as number or digit string) become
datetimes, everything else coerces to NaT. -/
def toDatetimeVal : Val → Val
  | Val.null => Val.null
  | Val.num q => if 0 ≤ q ∧ q.den = 1 then Val.date q.num.toNat else Val.null
  | Val.str s =>
    match digitsToNat? s.toList with
    | some n => Val.date n
    | none => Val.null
  | Val.date t => Val.date t

/-- The rename dictionary of lines 55-61. -/
def renameCol (c : String) : String :=
  if c = "Tempo Resolvido (Horas)" then "Tempo Resolvido (h)"
  else if c = "Analista Responsável" then "Analista"
  else if c = "Categoria 1" then "Categoria"
  else if c = "PK Dataset Chamados" then "ID Chamado"
  else if c = "Flag Atendeu SLA" then "Status SLA"
  else c

/-- The diagnostics `carregar_dados` can emit: `badFile name` is the
warning of line 28, `droppedRows n` the warning of line 50. -/
inductive Diag where
  | badFile : String → Diag
  | droppedRows : Nat → Diag
deriving DecidableEq

def dataCriacao : String := "Data criação"

/-- The warnings of line 28: one `badFile` per file whose read
raised. -/
def avisosLeitura (arquivos : List CsvFile) : List Diag :=
  arquivos.filterMap
    (fun f => if (read_csv f).isNone then some (Diag.badFile f.name) else none)

/-- Lines 34-38: the frames that did read, concatenated, with the
all-NaN columns removed. -/
def mergedDF (arquivos : List CsvFile) : DF :=
  (concatDFs (arquivos.filterMap read_csv)).dropAllNullCols

/-- Line 42: coerce column `j` of every row to a datetime. -/
def coerceDates (rows : List (List Val)) (j : Nat) : List (List Val) :=
  rows.map (fun r => r.set j (toDatetimeVal (r.getD j Val.null)))

/-- Line 47, `dropna(subset=["Data criação"])`: keep the rows whose
column-`j` cell is not NaT. -/
def dropBadDates (rows : List (List Val)) (j : Nat) : List (List Val) :=
  rows.filter (fun r => !(r.getD j Val.null == Val.null))

/-- Lines 42-65 once the date column was found at index `j`: coerce
the dates, drop the NaT rows (warning with the count, line 50), and
apply the rename dictionary (lines 55-61). -/
def processar (warnings : List Diag) (df0 : DF) (j : Nat) : List Diag × DF :=
  let kept := dropBadDates (coerceDates df0.rows j) j
  let removidas := (coerceDates df0.rows j).length - kept.length
  (warnings ++ (if removidas > 0 then [Diag.droppedRows removidas] else []),
   { cols := df0.cols.map renameCol, rows := kept })

/-- The loader `carregar_dados` (lines 17-65): read each file (bad
files yield a warning and are skipped), return an empty dataframe if
none read; otherwise concatenate, drop all-NaN columns, coerce the
`Data criação` column to datetimes (a `KeyError` escapes, as in the
source, when that column is absent from the merged frame), drop the
rows whose date coerced to NaT, and apply the rename dictionary. -/
def carregar_dados (arquivos : List CsvFile) : Except String (List Diag × DF) :=
  if (arquivos.filterMap read_csv).isEmpty then
    Except.ok (avisosLeitura arquivos, ⟨[], []⟩)
  else
    match colIdx (mergedDF arquivos).cols dataCriacao with
    | none => Except.error "KeyError: Data criação"
    | some j => Except.ok (processar (avisosLeitura arquivos) (mergedDF arquivos) j)

/-- Typed view of one row of the canonical dataframe, restricted to
the columns the filter and the analysis tabs read.  `created` is the
parsed `Data criação` timestamp in seconds (non-null for every row
that survives loading); `id`, `analyst`, `category`, `sla` are
`none` where the cell is NaN; `resolvedHours` is kept as a raw cell
because loading applies no coercion to it. -/
structure Ticket where
  id : Option String
  created : Nat
  resolvedHours : Val
  analyst : Option String
  category : Option String
  sla : Option String
deriving DecidableEq

/-- Pandas `.dt.date` on a timestamp in seconds. -/
def dateOf (t : Nat) : Nat := t / 86400

/-- Lexicographic character-list comparison, Python's string order
for the code-point range these labels use. -/
def strLeChars : List Char → List Char → Bool
  | [], _ => true
  | _ :: _, [] => false
  | a :: as, b :: bs => if a = b then strLeChars as bs else Nat.ble a.toNat b.toNat

/-- String comparison used by `sorted(...)`. -/
def strLe (x y : String) : Bool := strLeChars x.toList y.toList

/-- Line 92, `sorted(df_dados["Analista"].dropna().unique())`: the
filter-option domain for analysts, built from the observed non-NaN
values only. -/
def analistas (df : List Ticket) : List String :=
  List.insertionSort (fun x y => strLe x y = true) (df.filterMap Ticket.analyst).dedup

/-- Line 100, the filter-option domain for categories. -/
def categorias (df : List Ticket) : List String :=
  List.insertionSort (fun x y => strLe x y = true) (df.filterMap Ticket.category).dedup

/-- Line 108, `df_dados["Data criação"].min().date()`. -/
def data_min (df : List Ticket) : Nat := dateOf ((df.map Ticket.created).min?.getD 0)

/-- Line 109, `df_dados["Data criação"].max().date()`. -/
def data_max (df : List Ticket) : Nat := dateOf ((df.map Ticket.created).max?.getD 0)

/-- The boolean mask of lines 125-128: `isin` on the analyst and
category cells (a NaN cell passes no `isin` test against the
NaN-free option lists) and the two date comparisons on `.dt.date`. -/
def passaFiltro (ans cats : List String) (d1 d2 : Nat) (t : Ticket) : Bool :=
  (match t.analyst with
   | some a => ans.contains a
   | none => false)
  && (match t.category with
      | some c => cats.contains c
      | none => false)
  && decide (d1 ≤ dateOf t.created) && decide (dateOf t.created ≤ d2)

/-- Lines 124-129, the filtered dataset. -/
def df_filtrado (df : List Ticket) (ans cats : List String) (d1 d2 : Nat) : List Ticket :=
  df.filter (passaFiltro ans cats d1 d2)

/-- Lines 120-129 together: the guard `len(periodo_selecionado) != 2`
stops the script (`none`); otherwise the filter runs on the two
bounds. -/
def aplicarFiltro (df : List Ticket) (ans cats : List String) (periodo : List Nat) :
    Option (List Ticket) :=
  match periodo with
  | [d1, d2] => some (df_filtrado df ans cats d1 d2)
  | _ => none

/-- The distinguished "met SLA" value of lines 185 and 211. -/
def metSLA : String := "ATENDEU O SLA"

/-- Tickets of group `a` (under grouping key `key`) whose SLA status
is the distinguished met value: the `sla_por_*["ATENDEU O SLA"]`
numerator of lines 186 and 212. -/
def metCountBy (key : Ticket → Option String) (df : List Ticket) (a : String) : Nat :=
  (df.filter (fun t => key t == some a && t.sla == some metSLA)).length

/-- Tickets of group `a` with a non-NaN SLA status: the
`sla_por_*.sum(axis=1)` denominator of lines 186 and 212 —
`groupby([key, "Status SLA"])` drops the rows whose status is NaN
before the unstacked counts are summed. -/
def slaCountBy (key : Ticket → Option String) (df : List Ticket) (a : String) : Nat :=
  (df.filter (fun t => key t == some a && t.sla.isSome)).length

/-- Whether the distinguished value appears at all, i.e. whether
`"ATENDEU O SLA"` is a column of the unstacked frame (lines 185 and
211); rows with a NaN grouping key are dropped by the groupby. -/
def hasMetColBy (key : Ticket → Option String) (df : List Ticket) : Bool :=
  df.any (fun t => (key t).isSome && t.sla == some metSLA)

/-- The `taxa_sla_%` column of lines 185-188 / 211-214. -/
def taxaSlaBy (key : Ticket → Option String) (df : List Ticket) (a : String) : Rat :=
  if hasMetColBy key df then
    ((metCountBy key df a : Rat) / (slaCountBy key df a : Rat)) * 100
  else 0

/-- The `total_chamados=("ID Chamado", "count")` aggregate of lines
180 and 206: pandas `count` counts the non-NaN ids of the group. -/
def totalChamadosBy (key : Ticket → Option String) (df : List Ticket) (a : String) : Nat :=
  (df.filter (fun t => key t == some a && t.id.isSome)).length

/-- Group keys of `groupby(key)`: observed non-NaN key values, sorted
ascending as pandas sorts group keys. -/
def groupsBy (key : Ticket → Option String) (df : List Ticket) : List String :=
  List.insertionSort (fun x y => strLe x y = true) (df.filterMap key).dedup

/-- Index of the unstacked `groupby([key, "Status SLA"]).size()`
frame: the key values that occur with a non-NaN SLA status. -/
def slaGroupsBy (key : Ticket → Option String) (df : List Ticket) : List String :=
  List.insertionSort (fun x y => strLe x y = true)
    (df.filterMap (fun t => if t.sla.isSome then key t else none)).dedup

/-- The merged summary of lines 190 / 216: the inner `pd.merge` on
the grouping key keeps exactly the groups present on both sides —
the groups with at least one non-NaN SLA status — pairing each with
its ticket count and its `taxa_sla_%`.  (The mean-resolution-hours
display column is orthogonal to the claims and omitted.) -/
def resumoBy (key : Ticket → Option String) (df : List Ticket) : List (String × Nat × Rat) :=
  ((groupsBy key df).filter (fun a => (slaGroupsBy key df).contains a)).map
    (fun a => (a, totalChamadosBy key df a, taxaSlaBy key df a))

/-- Lines 179-191, `desempenho_final`: the per-analyst summary. -/
def desempenho_final (df : List Ticket) : List (String × Nat × Rat) :=
  resumoBy Ticket.analyst df

/-- Lines 205-217, `analise_final`: the per-category summary. -/
def analise_final (df : List Ticket) : List (String × Nat × Rat) :=
  resumoBy Ticket.category df

/-!
Concrete inputs used to settle the individual claims.
-/

/-- A file whose second data row has an empty analyst cell and a
valid creation date. -/
def c1file : CsvFile :=
  CsvFile.good "chamados.csv" ["Data criação", "Analista Responsável"]
    [["100", "Ana"], ["200", ""]]

/-- What loading `c1file` produces. -/
def c1df : DF :=
  ⟨["Data criação", "Analista"],
   [[Val.date 100, Val.str "Ana"], [Val.date 200, Val.null]]⟩

/-- A file whose resolved-hours column mixes the non-numeric "abc"
with "3.5", so the column is typed object and both cells stay raw
strings. -/
def c2file : CsvFile :=
  CsvFile.good "mixed.csv"
    ["Data criação", "Tempo Resolvido (Horas)", "Analista Responsável", "Categoria 1"]
    [["100", "abc", "Ana", "Rede"], ["200", "3.5", "Bia", "Acesso"]]

/-- What loading `c2file` produces: both rows retained, both
resolved-hours cells raw strings. -/
def c2df : DF :=
  ⟨["Data criação", "Tempo Resolvido (h)", "Analista", "Categoria"],
   [[Val.date 100, Val.str "abc", Val.str "Ana", Val.str "Rede"],
    [Val.date 200, Val.str "3.5", Val.str "Bia", Val.str "Acesso"]]⟩

/-- A file whose resolved-hours column is entirely numeric, so
`read_csv` types it numeric and "3.5" becomes the rational 7/2. -/
def c2fileNum : CsvFile :=
  CsvFile.good "clean.csv"
    ["Data criação", "Tempo Resolvido (Horas)", "Analista Responsável", "Categoria 1"]
    [["100", "3.5", "Ana", "Rede"]]

/-- What loading `c2fileNum` produces. -/
def c2dfNum : DF :=
  ⟨["Data criação", "Tempo Resolvido (h)", "Analista", "Categoria"],
   [[Val.date 100, Val.num (7 / 2 : Rat), Val.str "Ana", Val.str "Rede"]]⟩

/-- A file that has the date column. -/
def c3f1 : CsvFile :=
  CsvFile.good "a.csv" ["Data criação", "Analista Responsável"] [["100", "Ana"]]

/-- A parseable file with no recognized date-column alias. -/
def c3f2 : CsvFile :=
  CsvFile.good "b.csv" ["Abertura", "Analista Responsável"] [["999", "Bob"]]

/-- What loading `[c3f1, c3f2]` produces: no row of `c3f2`
survives, and the only diagnostic is an anonymous dropped-row
count. -/
def c3df : DF :=
  ⟨["Data criação", "Analista", "Abertura"],
   [[Val.date 100, Val.str "Ana", Val.null]]⟩

/-- A parseable file with no `Data criação` column, the only file of
its batch. -/
def c4file : CsvFile :=
  CsvFile.good "c.csv" ["Abertura", "Analista Responsável"] [["100", "Ana"]]

/-- Two tickets of analyst "A": one met the SLA, one has no SLA
status at all. -/
def c5cx : List Ticket :=
  [⟨some "1", 100, Val.null, some "A", some "Rede", some metSLA⟩,
   ⟨some "2", 200, Val.null, some "A", some "Rede", none⟩]

/-- Ten tickets of analyst "Ana": seven met the SLA, three carry a
different (non-missing) status. -/
def c5df10 : List Ticket :=
  (List.range 7).map (fun i =>
    ⟨some "id", 100 + i, Val.null, some "Ana", some "Rede", some metSLA⟩)
  ++ (List.range 3).map (fun i =>
    ⟨some "id", 200 + i, Val.null, some "Ana", some "Rede",
     some "NAO ATENDEU O SLA"⟩)

/-- A ticket with every categorical field present. -/
def c6t1 : Ticket := ⟨some "1", 100000, Val.null, some "Ana", some "Acesso", none⟩

/-- A ticket whose analyst cell is NaN. -/
def c6t2 : Ticket := ⟨some "2", 200000, Val.null, none, some "Rede", none⟩

/-- A dataset containing a NaN-analyst ticket. -/
def c6df : List Ticket := [c6t1, c6t2]

/-- A dataset with all analyst and category cells present. -/
def c6wdf : List Ticket :=
  [⟨some "1", 100000, Val.null, some "Ana", some "Acesso", none⟩,
   ⟨some "2", 200000, Val.null, some "Bob", some "Rede", none⟩]

/-- A one-ticket dataset used for the malformed-range claim. -/
def c8df : List Ticket :=
  [⟨some "1", 4 * 86400, Val.null, some "Ana", some "Rede", none⟩]

deriving instance DecidableEq for Except

/-!
Shared lemmas about the embedded pipeline.
-/

/-- The rename dictionary maps nothing onto the date-column label. -/
theorem renameCol_eq_dataCriacao (c : String) :
    renameCol c = dataCriacao ↔ c = dataCriacao := by
  unfold renameCol
  split_ifs with h1 h2 h3 h4 h5 <;> subst_vars <;> first | decide | exact Iff.rfl

/-- Renaming does not move the date column. -/
theorem colIdx_map_renameCol (cols : List String) :
    colIdx (cols.map renameCol) dataCriacao = colIdx cols dataCriacao := by
  induction cols with
  | nil => rfl
  | cons x xs ih =>
    simp only [List.map_cons, colIdx]
    by_cases h : x = dataCriacao
    · rw [if_pos ((renameCol_eq_dataCriacao x).mpr h), if_pos h]
    · rw [if_neg (fun hc => h ((renameCol_eq_dataCriacao x).mp hc)), if_neg h, ih]

/-- Column lookup fails exactly when the label is absent. -/
theorem colIdx_eq_none_iff (cols : List String) (c : String) :
    colIdx cols c = none ↔ c ∉ cols := by
  induction cols with
  | nil => simp [colIdx]
  | cons x xs ih =>
    simp only [colIdx, List.mem_cons]
    by_cases h : x = c
    · simp [h]
    · rw [if_neg h, Option.map_eq_none', ih]
      constructor
      · intro hn hor
        rcases hor with hc | hc
        · exact h hc.symm
        · exact hn hc
      · intro hn hc
        exact hn (Or.inr hc)

/-- Date coercion yields a datetime on every non-NaT result. -/
theorem toDatetimeVal_ne_null (v : Val) (h : ¬ toDatetimeVal v = Val.null) :
    ∃ t, toDatetimeVal v = Val.date t := by
  cases v with
  | null => exact absurd rfl h
  | num q =>
    simp only [toDatetimeVal] at h ⊢
    by_cases hq : 0 ≤ q ∧ q.den = 1
    · rw [if_pos hq]
      exact ⟨q.num.toNat, rfl⟩
    · rw [if_neg hq] at h
      exact absurd rfl h
  | str s =>
    simp only [toDatetimeVal, String.toList] at h ⊢
    cases hn : digitsToNat? s.data with
    | none =>
      rw [hn] at h
      exact absurd rfl h
    | some n => exact ⟨n, rfl⟩
  | date t => exact ⟨t, rfl⟩

/-- Every row surviving the coerce-then-drop steps carries a parsed
datetime in the date column. -/
theorem dropBadDates_mem_date (rows : List (List Val)) (j : Nat) (r : List Val)
    (h : r ∈ dropBadDates (coerceDates rows j) j) :
    ∃ t, r.getD j Val.null = Val.date t := by
  unfold dropBadDates coerceDates at h
  rw [List.mem_filter] at h
  obtain ⟨hmem, hpred⟩ := h
  rw [List.mem_map] at hmem
  obtain ⟨r0, hr0, rfl⟩ := hmem
  simp only [Bool.not_eq_eq_eq_not, Bool.not_true, beq_eq_false_iff_ne, ne_eq] at hpred
  by_cases hj : j < r0.length
  · rw [List.getD_eq_getElem?_getD, List.getElem?_set_self hj] at hpred ⊢
    simp only [Option.getD_some] at hpred ⊢
    exact toDatetimeVal_ne_null _ hpred
  · exfalso
    rw [List.getD_eq_getElem?_getD] at hpred
    rw [List.getElem?_eq_none] at hpred
    · simp at hpred
    · simp [List.length_set, Nat.le_of_not_lt hj]

/-- Boolean filter mask in propositional form. -/
theorem passaFiltro_eq_true (ans cats : List String) (d1 d2 : Nat) (t : Ticket) :
    passaFiltro ans cats d1 d2 t = true ↔
      (∃ a, t.analyst = some a ∧ a ∈ ans) ∧ (∃ c, t.category = some c ∧ c ∈ cats) ∧
      d1 ≤ dateOf t.created ∧ dateOf t.created ≤ d2 := by
  unfold passaFiltro
  cases ha : t.analyst with
  | none => simp [ha]
  | some a =>
    cases hc : t.category with
    | none => simp [ha, hc]
    | some c =>
      simp [ha, hc, List.contains_eq_any_beq, List.any_eq_true, and_assoc]

/-- The two calendar-day comparisons of the mask coincide with the
half-open timestamp range from midnight of the start date up to
midnight after the end date. -/
theorem dateOf_range (n d1 d2 : Nat) :
    (d1 ≤ dateOf n ∧ dateOf n ≤ d2) ↔ (d1 * 86400 ≤ n ∧ n < (d2 + 1) * 86400) := by
  unfold dateOf
  omega

/-- Observed analysts are in the analyst filter domain. -/
theorem mem_analistas (df : List Ticket) (t : Ticket) (a : String)
    (ht : t ∈ df) (ha : t.analyst = some a) : a ∈ analistas df := by
  unfold analistas
  rw [List.mem_insertionSort, List.mem_dedup]
  exact List.mem_filterMap.mpr ⟨t, ht, ha⟩

/-- Observed categories are in the category filter domain. -/
theorem mem_categorias (df : List Ticket) (t : Ticket) (c : String)
    (ht : t ∈ df) (hc : t.category = some c) : c ∈ categorias df := by
  unfold categorias
  rw [List.mem_insertionSort, List.mem_dedup]
  exact List.mem_filterMap.mpr ⟨t, ht, hc⟩

/-- The observed minimum date bounds every record date from below. -/
theorem data_min_le (df : List Ticket) (t : Ticket) (ht : t ∈ df) :
    data_min df ≤ dateOf t.created := by
  unfold data_min
  have hmem : t.created ∈ df.map Ticket.created := List.mem_map_of_mem _ ht
  cases hmin : (df.map Ticket.created).min? with
  | none =>
    rw [List.min?_eq_none_iff] at hmin
    rw [hmin] at hmem
    cases hmem
  | some m =>
    have hm := (List.min?_eq_some_iff'.mp hmin).2 _ hmem
    simp only [Option.getD_some]
    exact Nat.div_le_div_right hm

/-- The observed maximum date bounds every record date from above. -/
theorem le_data_max (df : List Ticket) (t : Ticket) (ht : t ∈ df) :
    dateOf t.created ≤ data_max df := by
  unfold data_max
  have hmem : t.created ∈ df.map Ticket.created := List.mem_map_of_mem _ ht
  cases hmax : (df.map Ticket.created).max? with
  | none =>
    rw [List.max?_eq_none_iff] at hmax
    rw [hmax] at hmem
    cases hmem
  | some m =>
    have hm := (List.max?_eq_some_iff'.mp hmax).2 _ hmem
    simp only [Option.getD_some]
    exact Nat.div_le_div_right hm

/-- Groups with a non-NaN SLA status are groups. -/
theorem slaGroups_sub_groups (key : Ticket → Option String) (df : List Ticket) (a : String)
    (h : a ∈ slaGroupsBy key df) : a ∈ groupsBy key df := by
  unfold slaGroupsBy at h
  unfold groupsBy
  rw [List.mem_insertionSort, List.mem_dedup] at h ⊢
  rw [List.mem_filterMap] at h ⊢
  obtain ⟨t, ht, hsla⟩ := h
  by_cases hs : t.sla.isSome
  · rw [if_pos hs] at hsla
    exact ⟨t, ht, hsla⟩
  · rw [if_neg hs] at hsla
    cases hsla

/-- A group listed in the unstacked SLA frame owns a ticket with a
non-NaN status. -/
theorem slaGroups_witness (key : Ticket → Option String) (df : List Ticket) (a : String)
    (h : a ∈ slaGroupsBy key df) :
    ∃ t ∈ df, key t = some a ∧ t.sla.isSome = true := by
  unfold slaGroupsBy at h
  rw [List.mem_insertionSort, List.mem_dedup, List.mem_filterMap] at h
  obtain ⟨t, ht, hsla⟩ := h
  by_cases hs : t.sla.isSome
  · rw [if_pos hs] at hsla
    exact ⟨t, ht, hsla, hs⟩
  · rw [if_neg hs] at hsla
    cases hsla

/-!
Claim theorems.
-/

/-- C1 (counterexample): loading a file whose second row has a valid
date but an empty analyst cell keeps that row, so the canonical
dataset contains a record with a null analyst — the claimed
invariant "every record has a non-null analyst and category and a
numeric non-negative resolved_hours" fails on the code. -/
theorem c1_counterexample :
    carregar_dados [c1file] = Except.ok ([], c1df) ∧
    [Val.date 200, Val.null] ∈ c1df.rows ∧
    c1df.getCell [Val.date 200, Val.null] "Analista" = some Val.null := by
  decide

/-- C1 (amended): the only validated field is the creation date —
every row of every dataframe `carregar_dados` returns holds a parsed
datetime in the `Data criação` column; analyst, category and
resolved-hours are passed through unvalidated. -/
theorem c1_valid_created_at (arquivos : List CsvFile) (w : List Diag) (df : DF)
    (h : carregar_dados arquivos = Except.ok (w, df)) :
    ∀ r ∈ df.rows, ∃ t, df.getCell r dataCriacao = some (Val.date t) := by
  unfold carregar_dados at h
  split at h
  · injection h with h'
    have hdf : ({ cols := [], rows := [] } : DF) = df := congrArg Prod.snd h'
    subst hdf
    intro r hr
    exact absurd hr (List.not_mem_nil r)
  · split at h
    · exact absurd h (by simp)
    · rename_i j heq
      injection h with h'
      have hdf : (processar (avisosLeitura arquivos) (mergedDF arquivos) j).2 = df :=
        congrArg Prod.snd h'
      subst hdf
      intro r hr
      have hr' : r ∈ dropBadDates (coerceDates (mergedDF arquivos).rows j) j := hr
      obtain ⟨t, ht⟩ := dropBadDates_mem_date _ j r hr'
      refine ⟨t, ?_⟩
      show (colIdx ((mergedDF arquivos).cols.map renameCol) dataCriacao).map
          (fun i => r.getD i Val.null) = some (Val.date t)
      rw [colIdx_map_renameCol, heq]
      exact congrArg some ht

/-- C1 (witness): the created-at invariant applied to the concrete
batch `[c1file]` and its surviving null-analyst row. -/
theorem c1_witness : ∃ t,
    c1df.getCell [Val.date 200, Val.null] dataCriacao = some (Val.date t) := by
  refine c1_valid_created_at [c1file] [] c1df (by decide)
    [Val.date 200, Val.null] (by decide)

/-- C2 (counterexample): the row whose resolved-hours cell is the
non-numeric "abc" is NOT dropped — both rows of `c2file` survive
loading, refuting the claimed coercion-and-drop behaviour. -/
theorem c2_counterexample :
    carregar_dados [c2file] = Except.ok ([], c2df) ∧ c2df.rows.length = 2 := by
  decide

/-- C2 (amended): loading applies no numeric coercion to
resolved-hours.  A row whose resolved cell fails to parse is
retained with the raw string ("abc" stays the string "abc", and in
such a mixed column even "3.5" stays a string); only when the whole
column is numeric does "3.5" come out as the rational 7/2. -/
theorem c2_no_coercion :
    (carregar_dados [c2file] = Except.ok ([], c2df) ∧
      [Val.date 100, Val.str "abc", Val.str "Ana", Val.str "Rede"] ∈ c2df.rows ∧
      c2df.getCell [Val.date 100, Val.str "abc", Val.str "Ana", Val.str "Rede"]
        "Tempo Resolvido (h)" = some (Val.str "abc")) ∧
    (carregar_dados [c2fileNum] = Except.ok ([], c2dfNum) ∧
      [Val.date 100, Val.num (7 / 2 : Rat), Val.str "Ana", Val.str "Rede"] ∈ c2dfNum.rows ∧
      c2dfNum.getCell [Val.date 100, Val.num (7 / 2 : Rat), Val.str "Ana", Val.str "Rede"]
        "Tempo Resolvido (h)" = some (Val.num (7 / 2 : Rat))) := by
  with_unfolding_all decide

/-- C3 (counterexample): merging a file with the date column and a
parseable file without it produces only the anonymous dropped-row
diagnostic — no diagnostic names the offending file "b.csv". -/
theorem c3_counterexample :
    carregar_dados [c3f1, c3f2] = Except.ok ([Diag.droppedRows 1], c3df) ∧
      Diag.badFile "b.csv" ∉ [Diag.droppedRows 1] := by
  decide

/-- C3 (amended): a parseable file lacking the date column
contributes no rows (its date cells are NaN after concatenation and
its rows are dropped as bad-date rows) and the only diagnostic is
the dropped-row count, which does not name the file; when no parsed
file has the column at all, loading instead raises a KeyError. -/
theorem c3_no_file_diagnostic :
    carregar_dados [c3f1, c3f2] = Except.ok ([Diag.droppedRows 1], c3df) ∧
      c3df.rows = [[Val.date 100, Val.str "Ana", Val.null]] ∧
      carregar_dados [c3f2] = Except.error "KeyError: Data criação" := by
  decide

/-- C4 (counterexample): a batch whose only file parses but has no
`Data criação` column makes `carregar_dados` raise a KeyError to its
caller — loading is not exception-free. -/
theorem c4_counterexample :
    carregar_dados [c4file] = Except.error "KeyError: Data criação" := by
  decide

/-- C4 (amended): `carregar_dados` raises exactly when at least one
file parses and the merged, all-NaN-column-pruned frame lacks the
`Data criação` column; per-file read failures and bad rows are
otherwise absorbed into diagnostics. -/
theorem c4_error_iff (arquivos : List CsvFile) :
    (∃ e, carregar_dados arquivos = Except.error e) ↔
      (arquivos.filterMap read_csv ≠ [] ∧ dataCriacao ∉ (mergedDF arquivos).cols) := by
  unfold carregar_dados
  split
  · rename_i hempty
    simp only [List.isEmpty_iff] at hempty
    simp [hempty]
  · rename_i hempty
    simp only [List.isEmpty_iff] at hempty
    cases heq : colIdx (mergedDF arquivos).cols dataCriacao with
    | none =>
      rw [colIdx_eq_none_iff] at heq
      simp [hempty, heq]
    | some j =>
      have hm : dataCriacao ∈ (mergedDF arquivos).cols := by
        by_contra hmem
        rw [← colIdx_eq_none_iff] at hmem
        rw [hmem] at heq
        cases heq
      simp [hempty, hm]

/-- C5 (counterexample): analyst "A" has two tickets, one met-SLA
and one with no SLA status; the claimed rate is 1/2 × 100 = 50, but
the code computes 1/1 × 100 = 100 because the groupby on the status
column drops the NaN-status ticket from the denominator. -/
theorem c5_counterexample : desempenho_final c5cx = [("A", 2, (100 : Rat))] := by
  with_unfolding_all decide

/-- C5 (amended): every group in the summary has at least one ticket
with a non-NaN SLA status; its rate is met-count over the count of
status-bearing tickets (not the group total) times 100 when the met
value occurs at all, else 0; the rate always lies in [0, 100]. -/
theorem c5_resumo_taxa (key : Ticket → Option String) (df : List Ticket) (a : String)
    (h : a ∈ slaGroupsBy key df) :
    (a, totalChamadosBy key df a, taxaSlaBy key df a) ∈ resumoBy key df ∧
      taxaSlaBy key df a =
        (if hasMetColBy key df then
          (metCountBy key df a : Rat) / (slaCountBy key df a : Rat) * 100 else 0) ∧
      0 ≤ taxaSlaBy key df a ∧ taxaSlaBy key df a ≤ 100 := by
  have hgrp := slaGroups_sub_groups key df a h
  have hmem : (a, totalChamadosBy key df a, taxaSlaBy key df a) ∈ resumoBy key df := by
    unfold resumoBy
    refine List.mem_map.mpr ⟨a, ?_, rfl⟩
    rw [List.mem_filter]
    refine ⟨hgrp, ?_⟩
    rw [List.contains_eq_any_beq, List.any_eq_true]
    exact ⟨a, h, by simp⟩
  have hcount : metCountBy key df a ≤ slaCountBy key df a := by
    unfold metCountBy slaCountBy
    rw [← List.countP_eq_length_filter, ← List.countP_eq_length_filter]
    refine List.countP_mono_left ?_
    intro t _ hp
    rw [Bool.and_eq_true] at hp ⊢
    refine ⟨hp.1, ?_⟩
    have h2 := hp.2
    rw [beq_iff_eq] at h2
    rw [h2]
    rfl
  have hpos : 0 < slaCountBy key df a := by
    obtain ⟨t, ht, hk, hs⟩ := slaGroups_witness key df a h
    unfold slaCountBy
    refine List.length_pos_of_mem (a := t) ?_
    rw [List.mem_filter]
    refine ⟨ht, ?_⟩
    rw [Bool.and_eq_true, beq_iff_eq]
    exact ⟨hk, hs⟩
  refine ⟨hmem, rfl, ?_, ?_⟩
  · unfold taxaSlaBy
    split
    · positivity
    · exact le_refl 0
  · unfold taxaSlaBy
    split
    · have hq : (metCountBy key df a : Rat) / (slaCountBy key df a : Rat) ≤ 1 := by
        rw [div_le_one (by exact_mod_cast hpos)]
        exact_mod_cast hcount
      calc (metCountBy key df a : Rat) / (slaCountBy key df a : Rat) * 100
          ≤ 1 * 100 := by
            exact mul_le_mul_of_nonneg_right hq (by norm_num)
        _ = 100 := one_mul 100
    · norm_num

/-- C5 (witness): on ten tickets of analyst "Ana", seven met-SLA and
three with another non-missing status, the summary lists
("Ana", 10, 70). -/
theorem c5_witness : ("Ana", 10, (70 : Rat)) ∈ desempenho_final c5df10 := by
  have h := (c5_resumo_taxa Ticket.analyst c5df10 "Ana" (by decide)).1
  have e1 : totalChamadosBy Ticket.analyst c5df10 "Ana" = 10 := by decide
  have e2 : taxaSlaBy Ticket.analyst c5df10 "Ana" = 70 := by with_unfolding_all decide
  rw [e1, e2] at h
  exact h

/-- C6 (counterexample): with a NaN-analyst ticket in the dataset,
filtering with the full observed analyst and category domains and
the full observed date range drops that ticket, so the filter is not
the identity on this canonical dataset. -/
theorem c6_counterexample :
    df_filtrado c6df (analistas c6df) (categorias c6df) (data_min c6df) (data_max c6df)
      = [c6t1] ∧ [c6t1] ≠ c6df := by
  decide

/-- C6 (amended): the full-domain full-range filter is the identity
provided every record has a non-missing analyst and category. -/
theorem c6_filtro_identidade (df : List Ticket)
    (hA : ∀ t ∈ df, t.analyst.isSome = true) (hC : ∀ t ∈ df, t.category.isSome = true) :
    df_filtrado df (analistas df) (categorias df) (data_min df) (data_max df) = df := by
  unfold df_filtrado
  rw [List.filter_eq_self]
  intro t ht
  rw [passaFiltro_eq_true]
  obtain ⟨a, ha⟩ := Option.isSome_iff_exists.mp (hA t ht)
  obtain ⟨c, hc⟩ := Option.isSome_iff_exists.mp (hC t ht)
  exact ⟨⟨a, ha, mem_analistas df t a ht ha⟩, ⟨c, hc, mem_categorias df t c ht hc⟩,
    data_min_le df t ht, le_data_max df t ht⟩

/-- C6 (witness): the identity law applied to a concrete dataset
whose analyst and category cells are all present. -/
theorem c6_witness :
    df_filtrado c6wdf (analistas c6wdf) (categorias c6wdf) (data_min c6wdf) (data_max c6wdf)
      = c6wdf :=
  c6_filtro_identidade c6wdf (by decide) (by decide)

/-- C7: a ticket is in the filtered dataset exactly when it is in
the dataset, its analyst and category belong to the selected sets,
and its timestamp lies in the half-open range from midnight of the
start date to midnight after the end date — the end date is fully
included whatever the time of day. -/
theorem c7_filtro_mem_iff (df : List Ticket) (ans cats : List String) (d1 d2 : Nat)
    (t : Ticket) :
    t ∈ df_filtrado df ans cats d1 d2 ↔
      t ∈ df ∧ (∃ a, t.analyst = some a ∧ a ∈ ans) ∧ (∃ c, t.category = some c ∧ c ∈ cats) ∧
      d1 * 86400 ≤ t.created ∧ t.created < (d2 + 1) * 86400 := by
  unfold df_filtrado
  rw [List.mem_filter, passaFiltro_eq_true]
  constructor
  · rintro ⟨h0, h1, h2, h3, h4⟩
    have hd := (dateOf_range t.created d1 d2).mp ⟨h3, h4⟩
    exact ⟨h0, h1, h2, hd.1, hd.2⟩
  · rintro ⟨h0, h1, h2, h3, h4⟩
    have hd := (dateOf_range t.created d1 d2).mpr ⟨h3, h4⟩
    exact ⟨h0, h1, h2, hd.1, hd.2⟩

/-- C8 (counterexample): a reversed range [5, 3] passes the
two-bounds guard and the filter silently returns the empty set
instead of refusing with a configuration error. -/
theorem c8_counterexample : aplicarFiltro c8df ["Ana"] ["Rede"] [5, 3] = some [] := by
  decide

/-- C8 (amended): the filter step refuses only when the supplied
range does not have exactly two bounds; a range with start after end
executes and silently yields the empty set. -/
theorem c8_guard (df : List Ticket) (ans cats : List String) (periodo : List Nat) :
    (periodo.length ≠ 2 → aplicarFiltro df ans cats periodo = none) ∧
      (∀ d1 d2, periodo = [d1, d2] → d2 < d1 →
        aplicarFiltro df ans cats periodo = some []) := by
  constructor
  · intro hlen
    unfold aplicarFiltro
    match periodo with
    | [] => rfl
    | [d] => rfl
    | [d1, d2] => exact absurd rfl hlen
    | d1 :: d2 :: d3 :: rest => rfl
  · rintro d1 d2 rfl hlt
    show some (List.filter (passaFiltro ans cats d1 d2) df) = some []
    congr 1
    rw [List.filter_eq_nil_iff]
    intro t ht
    rw [passaFiltro_eq_true]
    rintro ⟨-, -, h1, h2⟩
    omega

/-- C8 (witness): the guard refuses a three-bound range and executes
a reversed two-bound range to an empty result on concrete data. -/
theorem c8_witness :
    aplicarFiltro c8df ["Ana"] ["Rede"] [1, 2, 3] = none ∧
      aplicarFiltro c8df ["Ana"] ["Rede"] [5, 3] = some [] :=
  ⟨(c8_guard c8df ["Ana"] ["Rede"] [1, 2, 3]).1 (by decide),
   (c8_guard c8df ["Ana"] ["Rede"] [5, 3]).2 5 3 rfl (by decide)⟩

/-- C9: filtering an already-filtered dataset with the same criteria
returns the same dataset. -/
theorem c9_filtro_idempotente (df : List Ticket) (ans cats : List String) (d1 d2 : Nat) :
    df_filtrado (df_filtrado df ans cats d1 d2) ans cats d1 d2 =
      df_filtrado df ans cats d1 d2 := by
  unfold df_filtrado
  rw [List.filter_filter]
  congr 1
  funext t
  exact Bool.and_self _

/-- C10: under any criteria drawn from the observed non-missing
filter domains, a ticket with a missing analyst or category cell is
never part of the filtered output. -/
theorem c10_filtro_exclui_nulos (df : List Ticket) (ans cats : List String) (d1 d2 : Nat)
    (hA : ∀ a ∈ ans, a ∈ analistas df) (hC : ∀ c ∈ cats, c ∈ categorias df) :
    ∀ t, t.analyst = none ∨ t.category = none → t ∉ df_filtrado df ans cats d1 d2 := by
  intro t hnull hmem
  unfold df_filtrado at hmem
  rw [List.mem_filter] at hmem
  obtain ⟨-, hpred⟩ := hmem
  unfold passaFiltro at hpred
  rcases hnull with h | h <;> rw [h] at hpred <;> simp at hpred

/-- C10 (witness): on the concrete dataset with a NaN-analyst
ticket, the default full-domain selection silently excludes that
ticket. -/
theorem c10_witness :
    c6t2 ∉ df_filtrado c6df (analistas c6df) (categorias c6df) 0 99999 :=
  c10_filtro_exclui_nulos c6df (analistas c6df) (categorias c6df) 0 99999
    (fun a ha => ha) (fun c hc => hc) c6t2 (Or.inl rfl)

end Chamados
